import Mathlib

/-!
Verification development for the `contenthandler` FastAPI backend
(`src/app/app.py`, `src/app/users.py`, `src/app/schemas.py`).

Shallow embedding conventions:
* UUID values (`uuid.UUID`) are modelled as `Nat`.
* Timestamps (`created_at` / `updated_at`, datetime columns) are modelled as `Int`.
* The relational `post` table is a `List Post`; the local filesystem is the
  `List String` of paths that currently exist on disk.
* A Python exception in flight is an `Exc`; `Exc.http s d` is
  `fastapi.HTTPException(status_code=s, detail=d)` (a subclass of `Exception`,
  whose `str()` is `"{status_code}: {detail}"` per Starlette), and
  `Exc.generic msg` is any other exception with `str(e) = msg`.
* A handler body returns `Except Exc v`: `.error e` models `raise e`.
* Effects of the external collaborators (tempfile staging, the ImageKit
  object store) are supplied as explicit outcome parameters, so theorems
  quantify over every behaviour the collaborator can exhibit at the
  call sites the code has.
-/

namespace ContentHandler

/-- Row of the `post` table (`app/db.py` model `Post`, fields as used in
`app.py`: id, user_id, caption, url, file_type, file_name, created_at,
updated_at). -/
structure Post where
  id : Nat
  user_id : Nat
  caption : String
  url : String
  file_type : String
  file_name : String
  created_at : Int
  updated_at : Int
deriving DecidableEq, Repr

/-- The authenticated caller, as `current_active_user` resolves it: the
fields of the `user` row that the handlers read (`user.id`, `user.email`). -/
structure User where
  id : Nat
  email : String
deriving DecidableEq, Repr

/-- A Python exception in flight: either a `fastapi.HTTPException` or any
other exception carrying its `str()` message. -/
inductive Exc where
  | http (status : Nat) (detail : String)
  | generic (msg : String)
deriving DecidableEq, Repr

/-- Python `str(e)` for an exception: Starlette's `HTTPException.__str__` is
`f"{self.status_code}: {self.detail}"`; for other exceptions we carry the
message directly. -/
def excStr : Exc → String
  | .http status detail => toString status ++ ": " ++ detail
  | .generic msg => msg

/-! ## Upload Handler (`create_post`, app.py lines 61-109) -/

/-- Python `s.startswith(pre)`: the character sequence of `pre` is a
prefix of the character sequence of `s`. -/
def startswith (s pre : String) : Bool :=
  pre.data.isPrefixOf s.data

/-- Outcome of the staging phase
(`tempfile.NamedTemporaryFile(delete=False, ...)` plus
`shutil.copyfileobj(file.file, temp_file)`):
either an exception is raised before the temporary file exists on disk
(so `temp_file_path` is still `None`), or an exception is raised after the
file was created (the `with` block has already assigned `temp_file_path`),
or staging succeeds leaving the file at `path`. -/
inductive StageOutcome where
  | failBeforeCreate (msg : String)
  | failAfterCreate (path : String) (msg : String)
  | ok (path : String)
deriving DecidableEq, Repr

/-- Outcome of `imagekit.upload_file(...)`: it raises, or it returns a
result whose `response_metadata.http_status_code` is `status` and whose
`url` / `name` fields are as given. -/
inductive StoreOutcome where
  | raises (msg : String)
  | responds (status : Nat) (url : String) (name : String)
deriving DecidableEq, Repr

/-- The environment a single `/upload` request runs against: what staging
does, what the object store does, and the id / timestamp the database
assigns to a freshly committed row. -/
structure UploadEnv where
  stage : StageOutcome
  store : StoreOutcome
  newId : Nat
  now : Int
deriving DecidableEq, Repr

/-- State at the end of the `try` block of `create_post`: the value
returned or the exception raised, the `post` table, the Python variable
`temp_file_path`, and the disk. -/
structure TryResult where
  result : Except Exc Post
  db : List Post
  temp_file_path : Option String
  fs : List String
deriving Repr

/-- The `try` block of `create_post` (app.py lines 70-101), literally:
stage the upload to a temporary file, send it to ImageKit, and on HTTP 200
from the store build the `Post` row, `session.add` + `commit` it and return
it; on any other store status `raise HTTPException(500, "File upload
failed")`; exceptions from staging or transmission propagate as raised. -/
def create_post_try (env : UploadEnv) (content_type : String) (caption : String)
    (user : User) (db : List Post) (fs : List String) : TryResult :=
  match env.stage with
  | .failBeforeCreate msg =>
      { result := .error (.generic msg), db := db, temp_file_path := none, fs := fs }
  | .failAfterCreate path msg =>
      { result := .error (.generic msg), db := db, temp_file_path := some path,
        fs := fs ++ [path] }
  | .ok path =>
      let fs1 := fs ++ [path]
      match env.store with
      | .raises msg =>
          { result := .error (.generic msg), db := db, temp_file_path := some path,
            fs := fs1 }
      | .responds status url name =>
          if status = 200 then
            let post : Post :=
              { id := env.newId
                user_id := user.id
                caption := caption
                url := url
                file_type := if startswith content_type "video/" then "video" else "image"
                file_name := name
                created_at := env.now
                updated_at := env.now }
            { result := .ok post, db := db ++ [post], temp_file_path := some path,
              fs := fs1 }
          else
            { result := .error (.http 500 "File upload failed"), db := db,
              temp_file_path := some path, fs := fs1 }

/-- The whole `create_post` handler (app.py lines 61-109): run the `try`
block; the blanket `except Exception as e` turns every raised exception
`e` (including the `HTTPException` raised on a non-200 store status) into
`HTTPException(500, f"File upload failed: {str(e)}")`; the `finally`
block unlinks `temp_file_path` when it is set and the file exists.
Returns (response-or-raise, post table, disk). -/
def create_post (env : UploadEnv) (content_type : String) (caption : String)
    (user : User) (db : List Post) (fs : List String) :
    Except Exc Post × List Post × List String :=
  let t := create_post_try env content_type caption user db fs
  let result : Except Exc Post :=
    match t.result with
    | .ok post => .ok post
    | .error e => .error (.http 500 ("File upload failed: " ++ excStr e))
  let fs2 : List String :=
    match t.temp_file_path with
    | some path => if path ∈ t.fs then t.fs.erase path else t.fs
    | none => t.fs
  (result, t.db, fs2)

/-- The HTTP status the framework sends for a handler outcome: a normal
return uses the route's `status_code`, which is FastAPI's default 200 for
every route in `app.py` (none passes `status_code=`); a raised
`HTTPException` uses its own status; any other escaping exception becomes
a 500 Internal Server Error. -/
def http_status {v : Type} (routeDefault : Nat) (r : Except Exc v) : Nat :=
  match r with
  | .ok _ => routeDefault
  | .error (.http status _) => status
  | .error (.generic _) => 500

/-- The path the staging phase created a temporary file at, if any. -/
def StageOutcome.createdPath : StageOutcome → Option String
  | .failBeforeCreate _ => none
  | .failAfterCreate path _ => some path
  | .ok path => some path

/-! ## Feed Reader (`get_feeds`, app.py lines 111-134) -/

/-- One dict of the `posts_details` list built by `get_feeds`: the post's
columns (`id` and `user_id` rendered through `str(...)`), plus
`is_owner = (post.user_id == user.id)` and `email = user.email`. -/
structure FeedEntry where
  id : String
  user_id : String
  caption : String
  url : String
  file_type : String
  file_name : String
  created_at : Int
  updated_at : Int
  is_owner : Bool
  email : String
deriving DecidableEq, Repr

/-- Row comparison used by the feed query: `a` may come before `b` when
`b.created_at ≤ a.created_at` (descending creation time). -/
def createdDesc (a b : Post) : Prop :=
  b.created_at ≤ a.created_at

instance : DecidableRel createdDesc := fun a b =>
  inferInstanceAs (Decidable (b.created_at ≤ a.created_at))

instance : IsTotal Post createdDesc :=
  ⟨fun a b => Int.le_total b.created_at a.created_at⟩

instance : IsTrans Post createdDesc :=
  ⟨fun _ _ _ hab hbc => le_trans hbc hab⟩

/-- The query `select(Post).order_by(Post.created_at.desc())`: all rows of the
`post` table, sorted by `created_at` descending (modelled as a sort of
the table's row list under `createdDesc`). -/
def orderByCreatedAtDesc (db : List Post) : List Post :=
  List.insertionSort createdDesc db

/-- The dict `get_feeds` appends to `posts_details` for one row. -/
def feedEntryOf (user : User) (post : Post) : FeedEntry :=
  { id := toString post.id
    user_id := toString post.user_id
    caption := post.caption
    url := post.url
    file_type := post.file_type
    file_name := post.file_name
    created_at := post.created_at
    updated_at := post.updated_at
    is_owner := post.user_id == user.id
    email := user.email }

/-- The `get_feeds` handler (app.py lines 111-134): fetch all posts ordered
by creation time descending and render each with the ownership flag and
the caller's email. -/
def get_feeds (db : List Post) (user : User) : List FeedEntry :=
  (orderByCreatedAtDesc db).map (feedEntryOf user)

/-! ## Post Eraser (`delete_post_by_id`, app.py lines 137-159) -/

/-- The success body of `delete_post_by_id`:
`{"success": True, "message": "Post deleted", "post_id": str(post.id)}`. -/
structure DeleteSuccess where
  success : Bool
  message : String
  post_id : String
deriving DecidableEq, Repr

/-- The `try` block of `delete_post_by_id` (app.py lines 143-156): look the
row up by id (`scalar_one_or_none` on ids, which are unique, is the first
match); `raise HTTPException(404, "Post not found")` when absent;
`raise HTTPException(403, "Not authorized to delete this post")` when the
caller is not the owner; otherwise `session.delete` the row, commit, and
return the success dict. `post_id` is the already-parsed UUID (modelled
as `Nat`; a well-formed UUID string parses to it via `uuid.UUID`). -/
def delete_post_by_id_try (db : List Post) (post_id : Nat) (user : User) :
    Except Exc DeleteSuccess × List Post :=
  match db.find? (fun p => p.id == post_id) with
  | none => (.error (.http 404 "Post not found"), db)
  | some post =>
      if post.user_id ≠ user.id then
        (.error (.http 403 "Not authorized to delete this post"), db)
      else
        (.ok { success := true, message := "Post deleted", post_id := toString post.id },
         db.eraseP (fun p => p.id == post_id))

/-- The whole `delete_post_by_id` handler (app.py lines 137-159): the
`try` block's `raise HTTPException(404/403)` statements are themselves
exceptions, so the blanket `except Exception as e` catches them too and
re-raises `HTTPException(500, f"Error deleting post: {str(e)}")`. -/
def delete_post_by_id (db : List Post) (post_id : Nat) (user : User) :
    Except Exc DeleteSuccess × List Post :=
  match delete_post_by_id_try db post_id user with
  | (.ok r, db1) => (.ok r, db1)
  | (.error e, db1) =>
      (.error (.http 500 ("Error deleting post: " ++ excStr e)), db1)

/-! ## Auth Gateway secrets (`users.py` lines 10-30) -/

/-- The constant `SECRET = "SECRET_KEY_FOR_JWT_TOKENS"` (users.py line 10). -/
def SECRET : String := "SECRET_KEY_FOR_JWT_TOKENS"

/-- The class attribute `UserManager.reset_password_token_secret = SECRET`
(users.py line 13). -/
def reset_password_token_secret : String := SECRET

/-- The class attribute `UserManager.verification_token_secret = SECRET`
(users.py line 14). -/
def verification_token_secret : String := SECRET

/-- The `secret=SECRET` passed to `JWTStrategy` in `get_jwt_strategy`
(users.py line 30). -/
def jwt_strategy_secret : String := SECRET

/-! ## Response statuses -/

/-- None of the route decorators in app.py passes `status_code=`, so every
route answers a normal return with FastAPI's default success status, 200. -/
def app_route_default_status : Nat := 200

/-- The HTTP status of a `/upload` response. -/
def upload_response_status (r : Except Exc Post) : Nat :=
  http_status app_route_default_status r

/-- The HTTP status of a `DELETE /posts/{post_id}` response. -/
def delete_response_status (r : Except Exc DeleteSuccess) : Nat :=
  http_status app_route_default_status r

/-! ## Theorems -/

/-- Erasing a freshly appended element recovers the original list. -/
lemma erase_append_singleton {α : Type} [DecidableEq α] {a : α} {l : List α}
    (h : a ∉ l) : (l ++ [a]).erase a = l := by
  induction l with
  | nil => simp
  | cons x xs ih =>
      rw [List.mem_cons, not_or] at h
      rw [List.cons_append, List.erase_cons_tail, ih h.2]
      simp [beq_iff_eq]
      exact fun hxa => h.1 hxa.symm

/-- Claim C9: the JWT signing secret, the password-reset token secret and
the email-verification token secret are all the same single static string
constant. -/
theorem all_token_secrets_equal :
    reset_password_token_secret = SECRET ∧
    verification_token_secret = SECRET ∧
    jwt_strategy_secret = SECRET ∧
    SECRET = "SECRET_KEY_FOR_JWT_TOKENS" :=
  ⟨rfl, rfl, rfl, rfl⟩

/-- Claim C1 (code bug): deleting a post id that matches no row does NOT
answer 404. The `HTTPException(404, "Post not found")` raised inside the
`try` block is itself an `Exception`, so the blanket
`except Exception as e` catches it and re-raises it as a 500 wrapping the
404's `str()`. Evaluated here on an empty posts table. -/
theorem delete_nonexistent_responds_500_not_404 :
    delete_post_by_id [] 7 { id := 1, email := "a@example.com" } =
      (.error (.http 500 "Error deleting post: 404: Post not found"), []) ∧
    delete_response_status
      (delete_post_by_id [] 7 { id := 1, email := "a@example.com" }).1 = 500 := by
  exact ⟨rfl, rfl⟩

/-- Claim C2 (code bug): deleting someone else's post does NOT answer 403.
The `HTTPException(403, ...)` raised in the `try` block is caught by the
blanket `except Exception` and re-raised as a 500 wrapping the 403's
`str()`. The row is, as the claim says, left untouched: the resulting
table still holds the post, so it keeps appearing in feeds. -/
theorem delete_by_non_owner_responds_500_not_403_and_keeps_row :
    delete_post_by_id
        [{ id := 10, user_id := 1, caption := "hi", url := "u", file_type := "image",
           file_name := "f", created_at := 0, updated_at := 0 }] 10
        { id := 2, email := "b@example.com" } =
      (.error (.http 500 "Error deleting post: 403: Not authorized to delete this post"),
       [{ id := 10, user_id := 1, caption := "hi", url := "u", file_type := "image",
          file_name := "f", created_at := 0, updated_at := 0 }]) ∧
    feedEntryOf { id := 2, email := "b@example.com" }
        { id := 10, user_id := 1, caption := "hi", url := "u", file_type := "image",
          file_name := "f", created_at := 0, updated_at := 0 } ∈
      get_feeds
        (delete_post_by_id
          [{ id := 10, user_id := 1, caption := "hi", url := "u", file_type := "image",
             file_name := "f", created_at := 0, updated_at := 0 }] 10
          { id := 2, email := "b@example.com" }).2
        { id := 2, email := "b@example.com" } := by
  exact ⟨rfl, by decide⟩

/-- Claim C3 as stated is false: a fully successful authenticated upload
(store answers 200) is answered with HTTP status 200, not 201 — the
`@app_route.post("/upload")` decorator sets no `status_code`, so the
framework default 200 applies. Concrete run shown. -/
theorem create_post_status_201_counterexample :
    (create_post
        { stage := .ok "/tmp/upload1", store := .responds 200 "https://ik.io/u1" "u1.png",
          newId := 3, now := 11 }
        "image/png" "hello" { id := 1, email := "a@example.com" } [] []).1 =
      .ok { id := 3, user_id := 1, caption := "hello", url := "https://ik.io/u1",
            file_type := "image", file_name := "u1.png", created_at := 11,
            updated_at := 11 } ∧
    upload_response_status
      (create_post
        { stage := .ok "/tmp/upload1", store := .responds 200 "https://ik.io/u1" "u1.png",
          newId := 3, now := 11 }
        "image/png" "hello" { id := 1, email := "a@example.com" } [] []).1 ≠ 201 := by
  exact ⟨rfl, by decide⟩

/-- Claim C3 (amended): for every valid authenticated upload where the
remote object store reports success (HTTP 200), `create_post` responds
with HTTP status 200 — the framework default for the route — and the
created Post as body. -/
theorem create_post_success_responds_200_with_post
    (env : UploadEnv) (content_type caption : String) (user : User)
    (db : List Post) (fs : List String) (path url name : String)
    (hstage : env.stage = .ok path) (hstore : env.store = .responds 200 url name) :
    upload_response_status (create_post env content_type caption user db fs).1 = 200 ∧
    (create_post env content_type caption user db fs).1 =
      .ok { id := env.newId, user_id := user.id, caption := caption, url := url,
            file_type := if startswith content_type "video/" then "video" else "image",
            file_name := name, created_at := env.now, updated_at := env.now } := by
  simp [create_post, create_post_try, hstage, hstore, upload_response_status,
    http_status, app_route_default_status]

/-- Witness for `create_post_success_responds_200_with_post` at a concrete
successful upload. -/
theorem create_post_success_responds_200_with_post_witness :
    upload_response_status
      (create_post
        { stage := .ok "/tmp/u2", store := .responds 200 "https://ik.io/v" "v.mp4",
          newId := 9, now := 4 }
        "video/mp4" "clip" { id := 5, email := "c@example.com" } [] []).1 = 200 ∧
    (create_post
        { stage := .ok "/tmp/u2", store := .responds 200 "https://ik.io/v" "v.mp4",
          newId := 9, now := 4 }
        "video/mp4" "clip" { id := 5, email := "c@example.com" } [] []).1 =
      .ok { id := 9, user_id := 5, caption := "clip", url := "https://ik.io/v",
            file_type := if startswith "video/mp4" "video/" then "video" else "image",
            file_name := "v.mp4", created_at := 4, updated_at := 4 } :=
  create_post_success_responds_200_with_post
    { stage := .ok "/tmp/u2", store := .responds 200 "https://ik.io/v" "v.mp4",
      newId := 9, now := 4 }
    "video/mp4" "clip" { id := 5, email := "c@example.com" } [] []
    "/tmp/u2" "https://ik.io/v" "v.mp4" rfl rfl

/-- Claim C4: for every successful upload, the created Post's `file_type`
is `"video"` when the declared content type begins with `"video/"`, and
`"image"` for every other content type. -/
theorem create_post_file_type_rule
    (env : UploadEnv) (content_type caption : String) (user : User)
    (db : List Post) (fs : List String) (path url name : String)
    (hstage : env.stage = .ok path) (hstore : env.store = .responds 200 url name) :
    ∃ p : Post, (create_post env content_type caption user db fs).1 = .ok p ∧
      (startswith content_type "video/" = true → p.file_type = "video") ∧
      (startswith content_type "video/" = false → p.file_type = "image") := by
  refine ⟨{ id := env.newId, user_id := user.id, caption := caption, url := url,
            file_type := if startswith content_type "video/" then "video" else "image",
            file_name := name, created_at := env.now, updated_at := env.now },
    ?_, ?_, ?_⟩
  · simp [create_post, create_post_try, hstage, hstore]
  · intro h; simp [h]
  · intro h; simp [h]

/-- Witness for `create_post_file_type_rule` at a concrete upload whose
content type is not a video type. -/
theorem create_post_file_type_rule_witness :
    ∃ p : Post,
      (create_post
        { stage := .ok "/tmp/u3", store := .responds 200 "https://ik.io/p" "p.png",
          newId := 2, now := 8 }
        "image/png" "pic" { id := 4, email := "d@example.com" } [] []).1 = .ok p ∧
      (startswith "image/png" "video/" = true → p.file_type = "video") ∧
      (startswith "image/png" "video/" = false → p.file_type = "image") :=
  create_post_file_type_rule
    { stage := .ok "/tmp/u3", store := .responds 200 "https://ik.io/p" "p.png",
      newId := 2, now := 8 }
    "image/png" "pic" { id := 4, email := "d@example.com" } [] []
    "/tmp/u3" "https://ik.io/p" "p.png" rfl rfl

/-- Claim C7: every temporary file created while staging an upload is gone
from disk once `create_post` finishes, on every exit path — success,
store-reported non-success, and every modelled exception — because the
`finally` block unlinks `temp_file_path` whenever it is set and the file
exists. The temporary path is fresh (tempfile generates an unused name),
hence the `hfresh` hypothesis. -/
theorem create_post_temp_file_removed
    (env : UploadEnv) (content_type caption : String) (user : User)
    (db : List Post) (fs : List String) (path : String)
    (hpath : env.stage.createdPath = some path) (hfresh : path ∉ fs) :
    path ∉ (create_post env content_type caption user db fs).2.2 := by
  rcases env with ⟨stage, store, newId, now⟩
  cases stage with
  | failBeforeCreate msg => cases hpath
  | failAfterCreate p msg =>
      cases hpath
      simpa [create_post, create_post_try, erase_append_singleton hfresh] using hfresh
  | ok p =>
      cases hpath
      cases store with
      | raises msg =>
          simpa [create_post, create_post_try, erase_append_singleton hfresh] using hfresh
      | responds status url name =>
          by_cases h : status = 200 <;>
            simpa [create_post, create_post_try, h,
              erase_append_singleton hfresh] using hfresh

/-- Witness for `create_post_temp_file_removed`: a concrete successful
upload leaves its temporary file off the (initially empty) disk. -/
theorem create_post_temp_file_removed_witness :
    "/tmp/u4" ∉ (create_post
      { stage := .ok "/tmp/u4", store := .responds 200 "https://ik.io/q" "q.png",
        newId := 6, now := 2 }
      "image/png" "pic2" { id := 7, email := "e@example.com" } [] []).2.2 :=
  create_post_temp_file_removed
    { stage := .ok "/tmp/u4", store := .responds 200 "https://ik.io/q" "q.png",
      newId := 6, now := 2 }
    "image/png" "pic2" { id := 7, email := "e@example.com" } [] [] "/tmp/u4"
    rfl (by simp)

/-- Claim C10: whenever `create_post` fails — raises — for any reason
(store non-success status, or an exception during staging or
transmission), the posts table is unchanged: `session.add`/`commit` sit
only on the store-success branch. -/
theorem create_post_no_row_on_failure
    (env : UploadEnv) (content_type caption : String) (user : User)
    (db : List Post) (fs : List String) (e : Exc)
    (hfail : (create_post env content_type caption user db fs).1 = .error e) :
    (create_post env content_type caption user db fs).2.1 = db := by
  rcases env with ⟨stage, store, newId, now⟩
  cases stage with
  | failBeforeCreate msg => rfl
  | failAfterCreate p msg => rfl
  | ok p =>
      cases store with
      | raises msg => rfl
      | responds status url name =>
          by_cases h : status = 200
          · subst h
            exact absurd hfail (by simp [create_post, create_post_try])
          · simp [create_post, create_post_try, h]

/-- Witness for `create_post_no_row_on_failure`: a staging exception on a
concrete upload leaves the (empty) posts table empty. -/
theorem create_post_no_row_on_failure_witness :
    (create_post
      { stage := .failBeforeCreate "disk full",
        store := .responds 200 "https://ik.io/r" "r.png", newId := 1, now := 0 }
      "image/png" "x" { id := 1, email := "f@example.com" } [] []).2.1 = [] :=
  create_post_no_row_on_failure
    { stage := .failBeforeCreate "disk full",
      store := .responds 200 "https://ik.io/r" "r.png", newId := 1, now := 0 }
    "image/png" "x" { id := 1, email := "f@example.com" } [] []
    (.http 500 "File upload failed: disk full") rfl

/-- Claim C5: for every caller and every stored sequence of posts,
`get_feeds` returns an entry for every Post row — no filtering, each row
rendered exactly once — ordered by creation time descending. -/
theorem get_feeds_returns_all_rows_sorted_desc (db : List Post) (user : User) :
    (get_feeds db user).Perm (db.map (feedEntryOf user)) ∧
    (get_feeds db user).Pairwise (fun a b => b.created_at ≤ a.created_at) := by
  constructor
  · exact List.Perm.map _ (List.perm_insertionSort createdDesc db)
  · have h := List.sorted_insertionSort createdDesc db
    exact List.pairwise_map.mpr (h.imp (fun hab => hab))

/-- Claim C6: every entry of a feed response comes from a Post row of the
table, and its `is_owner` field is true exactly when that row's owning
user id equals the caller's id. -/
theorem get_feeds_is_owner_iff_owner (db : List Post) (user : User) :
    ∀ e ∈ get_feeds db user, ∃ p ∈ db, e = feedEntryOf user p ∧
      (e.is_owner = true ↔ p.user_id = user.id) := by
  intro e he
  rcases List.mem_map.mp he with ⟨p, hp, rfl⟩
  refine ⟨p, (List.perm_insertionSort createdDesc db).subset hp, rfl, ?_⟩
  simp [feedEntryOf]

/-- Witness for `get_feeds_is_owner_iff_owner` on a one-post table whose
owner is not the caller. -/
theorem get_feeds_is_owner_iff_owner_witness :
    ∃ p ∈ [({ id := 1, user_id := 3, caption := "c", url := "u", file_type := "image",
              file_name := "f", created_at := 0, updated_at := 0 } : Post)],
      feedEntryOf { id := 4, email := "g@example.com" }
          { id := 1, user_id := 3, caption := "c", url := "u", file_type := "image",
            file_name := "f", created_at := 0, updated_at := 0 } =
        feedEntryOf { id := 4, email := "g@example.com" } p ∧
      ((feedEntryOf { id := 4, email := "g@example.com" }
          { id := 1, user_id := 3, caption := "c", url := "u", file_type := "image",
            file_name := "f", created_at := 0, updated_at := 0 }).is_owner = true ↔
        p.user_id = 4) :=
  get_feeds_is_owner_iff_owner
    [{ id := 1, user_id := 3, caption := "c", url := "u", file_type := "image",
       file_name := "f", created_at := 0, updated_at := 0 }]
    { id := 4, email := "g@example.com" }
    (feedEntryOf { id := 4, email := "g@example.com" }
      { id := 1, user_id := 3, caption := "c", url := "u", file_type := "image",
        file_name := "f", created_at := 0, updated_at := 0 })
    (List.mem_map_of_mem _ (List.mem_singleton.mpr rfl))

/-- Claim C8: every entry of a feed response carries the requesting
caller's email, whatever row it renders — in particular also for posts
the caller does not own. -/
theorem get_feeds_email_is_callers (db : List Post) (user : User) :
    ∀ e ∈ get_feeds db user, e.email = user.email := by
  intro e he
  rcases List.mem_map.mp he with ⟨p, _, rfl⟩
  rfl

/-- Witness for `get_feeds_email_is_callers`: the entry rendered for a
post owned by user 3 carries caller 4's email. -/
theorem get_feeds_email_is_callers_witness :
    (feedEntryOf { id := 4, email := "caller@example.com" }
      { id := 1, user_id := 3, caption := "c", url := "u", file_type := "image",
        file_name := "f", created_at := 0, updated_at := 0 }).email =
      "caller@example.com" :=
  get_feeds_email_is_callers
    [{ id := 1, user_id := 3, caption := "c", url := "u", file_type := "image",
       file_name := "f", created_at := 0, updated_at := 0 }]
    { id := 4, email := "caller@example.com" }
    (feedEntryOf { id := 4, email := "caller@example.com" }
      { id := 1, user_id := 3, caption := "c", url := "u", file_type := "image",
        file_name := "f", created_at := 0, updated_at := 0 })
    (List.mem_map_of_mem _ (List.mem_singleton.mpr rfl))

end ContentHandler
